import Mathlib

/-!
# Verification of the chromium-pdf-api CDP core

A shallow embedding of the CDP session multiplexer (`src/cdp.py`, with the
divergent variant in `src/client.py`), the PDF orchestration slices of
`src/pdf.py`, and the HTTP error mapping of `src/server.py`, together with
theorems settling the specification claims about them.

Conventions:
* JSON values are modelled by the inductive `Json`; a frame that fails
  `json.loads` is modelled as `Option Json = none`.
* Python exceptions relevant to the embedded code are the inductive `PyExc`.
* asyncio futures registered in `CDPSession._cmd_futures` are modelled by
  `Slot` (`pending` / `resolved`); `set_result` on an already-resolved
  future raises `InvalidStateError`, which only a `KeyError` handler guards.
* The receive loop `CDPSession._msg_rx_loop` is modelled one transport
  event at a time (`rxRawStep`) and as a fold over a list of transport
  events (`rxLoop`); the `finally: self.listening_stopped.set()` is the
  loop exit in `rxLoop`.
-/

namespace ChromiumPdfApi

/-- JSON values as produced by Python's `json.loads`. -/
inductive Json where
  | null
  | bool (b : Bool)
  | num (n : Int)
  | str (s : String)
  | arr (elems : List Json)
  | obj (fields : List (String × Json))
deriving Repr, Inhabited

/-- Dictionary lookup on a JSON object's fields, i.e. Python's
`data.get(key)` / `data[key]` on a parsed JSON object. -/
def jGet (fields : List (String × Json)) (key : String) : Option Json :=
  (fields.find? (fun p => p.1 == key)).map (fun p => p.2)

/-- Python exceptions arising in the embedded code. `connectionClosed true`
is a `websockets.ConnectionClosed` whose `__cause__` is the websockets
library's own payload-too-big failure (code 1009). -/
inductive PyExc where
  | jsonDecodeError
  | attributeError
  | keyError
  | invalidStateError
  | cancelledError
  | connectionClosed (payloadCause : Bool)
  | wsPayloadTooBig
deriving Repr, DecidableEq

/-- State of one asyncio future stored in `CDPSession._cmd_futures`. -/
inductive Slot where
  | pending
  | resolved (data : Json)
deriving Repr

/-- `CDPSession` state touched by the receive loop: the command-id →
future map, the event-method → queues directory (queues named by ids into
`queues`), the queue buffers, and the `listening_stopped` event. -/
structure SessionState where
  cmdFutures : List (Int × Slot)
  methodQueues : List (String × List Nat)
  queues : List (Nat × List Json)
  listeningStopped : Bool
deriving Repr

/-- `self._cmd_futures[k]` as an optional lookup (a miss is a `KeyError`). -/
def lookupSlot (futures : List (Int × Slot)) (k : Int) : Option Slot :=
  (futures.find? (fun p => p.1 == k)).map (fun p => p.2)

/-- `future.set_result(data)`: the map keeps the same keys, the future
under `k` becomes resolved. -/
def setSlot (futures : List (Int × Slot)) (k : Int) (s : Slot) :
    List (Int × Slot) :=
  futures.map (fun p => if p.1 == k then (p.1, s) else p)

/-- `self._method_queues.get(method, [])`. -/
def queueIdsFor (st : SessionState) (method : String) : List Nat :=
  ((st.methodQueues.find? (fun p => p.1 == method)).map (fun p => p.2)).getD []

/-- `queue.put_nowait(data)` on the queue named `qid`. -/
def enqueue (queues : List (Nat × List Json)) (qid : Nat) (d : Json) :
    List (Nat × List Json) :=
  queues.map (fun p => if p.1 == qid then (p.1, p.2 ++ [d]) else p)

/-- Enqueue `d` on every queue in `qids`, in order. -/
def enqueueAll (queues : List (Nat × List Json)) (qids : List Nat) (d : Json) :
    List (Nat × List Json) :=
  qids.foldl (fun acc q => enqueue acc q d) queues

/-- Buffer of the queue named `qid`. -/
def queueBuf (st : SessionState) (qid : Nat) : Option (List Json) :=
  (st.queues.find? (fun p => p.1 == qid)).map (fun p => p.2)

/-- One transport event observed by `await self._ws.recv()` in the receive
loop: a text frame (already put through `json.loads`, `none` meaning the
parse raised `JSONDecodeError`), a `ConnectionClosed`, or a cancellation. -/
inductive RecvEvent where
  | frame (parsed : Option Json)
  | closed (payloadCause : Bool)
  | cancelled
deriving Repr

/-- Result of one iteration of the receive loop body: either the loop
continues with an updated state, or it exits (exception escaping the
`while`, before the `except`/`finally` clauses are applied). -/
inductive RxStep where
  | cont (st : SessionState)
  | exit (st : SessionState) (exc : Option PyExc)
deriving Repr

/-- The body of `CDPSession._msg_rx_loop` (src/cdp.py lines 127-139) for
one already-received frame:

* `json.loads` failure raises `JSONDecodeError` — uncaught;
* `data.get("id")` on a non-object (list, scalar, `None`) raises
  `AttributeError` — uncaught;
* `self._cmd_futures[cmd_id].set_result(data)` guarded only by
  `except KeyError: pass`; `set_result` on an already-resolved future
  raises `InvalidStateError` — uncaught;
* then the frame is fanned out to every queue subscribed to its `method`
  and to every queue subscribed to `"*"`. -/
def handleFrame (st : SessionState) (parsed : Option Json) : RxStep :=
  match parsed with
  | none => .exit st (some .jsonDecodeError)
  | some j =>
    match j with
    | .obj fields =>
      let cmdId := jGet fields "id"
      let methodVal := jGet fields "method"
      let slotAction : Except PyExc (List (Int × Slot)) :=
        match cmdId with
        | some (.num k) =>
          match lookupSlot st.cmdFutures k with
          | some .pending => .ok (setSlot st.cmdFutures k (.resolved j))
          | some (.resolved _) => .error .invalidStateError
          | none => .ok st.cmdFutures
        | _ => .ok st.cmdFutures
      match slotAction with
      | .error e => .exit st (some e)
      | .ok futures' =>
        let methodIds :=
          match methodVal with
          | some (.str m) => queueIdsFor st m
          | _ => []
        let starIds := queueIdsFor st "*"
        .cont { st with
                cmdFutures := futures'
                queues := enqueueAll (enqueueAll st.queues methodIds j) starIds j }
    | _ => .exit st (some .attributeError)

/-- One iteration of the receive loop, with the transport event made
explicit. `recv` raising `ConnectionClosed` or `CancelledError` also ends
the iteration, carrying that exception. -/
def rxRawStep (st : SessionState) (ev : RecvEvent) : RxStep :=
  match ev with
  | .frame parsed => handleFrame st parsed
  | .closed payloadCause => .exit st (some (.connectionClosed payloadCause))
  | .cancelled => .exit st (some .cancelledError)

/-- The `except (asyncio.CancelledError, websockets.ConnectionClosed): pass`
clause of `_msg_rx_loop`: these two are swallowed, every other exception
escapes and is stored on the task. -/
def caughtByExceptClause : PyExc → Bool
  | .cancelledError => true
  | .connectionClosed _ => true
  | _ => false

/-- Final observation of the receive-loop task. `running = true` means the
supplied transport events are exhausted and the loop is still going;
otherwise the loop has exited, `listening_stopped` was set by the
`finally`, and `taskExc` is the exception stored on the task handle
(after the `except` clause filtered it). -/
structure LoopResult where
  state : SessionState
  running : Bool
  taskExc : Option PyExc
deriving Repr

/-- `CDPSession._msg_rx_loop` run over a list of transport events. -/
def rxLoop (st : SessionState) : List RecvEvent → LoopResult
  | [] => ⟨st, true, none⟩
  | ev :: rest =>
    match rxRawStep st ev with
    | .cont st' => rxLoop st' rest
    | .exit st' e =>
      let exc :=
        match e with
        | some ex => if caughtByExceptClause ex then none else some ex
        | none => none
      ⟨{ st' with listeningStopped := true }, false, exc⟩

/-! ## `subscribe` and `wait_for` (src/cdp.py lines 186-197)

Both are modelled at the granularity of one pull by the consumer, given
the current `listening_stopped` flag and the subscription queue's buffer.
`subscribe` re-checks `listening_stopped` at the top of each iteration and
retries `queue.get()` on its one-second `wait_for` timeout, so a pull
yields the head of a non-empty queue, blocks on an empty queue while the
flag is unset, and raises `ReceiveLoopStopped` as soon as the flag is set.
`wait_for` is a bare `await queue.get()` with no flag check. -/

/-- Outcome of one pull on an event stream or queue. -/
inductive PullOutcome where
  | yielded (e : Json) (rest : List Json)
  | raisedLoopStopped
  | blocked
deriving Repr

/-- One iteration of `CDPSession.subscribe`: check `listening_stopped`,
then `yield await asyncio.wait_for(queue.get(), 1)` with
`except asyncio.TimeoutError: continue`. -/
def subscribeNext (listeningStopped : Bool) (queue : List Json) : PullOutcome :=
  if listeningStopped then .raisedLoopStopped
  else
    match queue with
    | e :: rest => .yielded e rest
    | [] => .blocked

/-- `CDPSession.wait_for`: `return await queue.get()` inside the scoped
subscription; the `listening_stopped` flag is never consulted. -/
def waitForNext (_listeningStopped : Bool) (queue : List Json) : PullOutcome :=
  match queue with
  | e :: rest => .yielded e rest
  | [] => .blocked

/-! ## `send` (src/cdp.py lines 145-172 and src/client.py lines 91-121)

`send(method, params, await_response=True)` registers a future, writes the
frame, and then awaits
`asyncio.wait([response, self._msg_rx_task], return_when=FIRST_COMPLETED)`.
The variant in `src/client.py` additionally wraps that wait in
`asyncio.wait_for(..., timeout=response_timeout)` with
`response_timeout=10` by default; the variant in `src/cdp.py` — the one
`get_pdf` uses — has no response timeout at all.

The await is modelled by the optional completion times of the two awaited
objects: `slotT` (the future's `set_result` time) and `taskT` (the receive
task's termination time). When both complete at the same instant, the
`if response in done` branch runs first, so the slot wins ties. -/

/-- Which of the two awaited objects completes first, and when:
`some (true, t)` the response future at time `t`, `some (false, t)` the
receive task at time `t`, `none` neither ever completes. -/
def firstDone (slotT taskT : Option Nat) : Option (Bool × Nat) :=
  match slotT, taskT with
  | none, none => none
  | some s, none => some (true, s)
  | none, some t => some (false, t)
  | some s, some t => if s ≤ t then some (true, s) else some (false, t)

/-- What a `send(..., await_response=True)` call ultimately does. -/
inductive SendOutcome where
  | result (r : Json)
  | raisedExc (e : PyExc)
  | raisedLoopStopped
  | raisedTimeout
  | blockedForever
deriving Repr

/-- `return response.result()["result"]`: a reply without a `"result"`
field (e.g. a protocol error reply) raises an uncaught `KeyError`. -/
def resultOf (frame : Json) : SendOutcome :=
  match frame with
  | .obj fields =>
    match jGet fields "result" with
    | some r => .result r
    | none => .raisedExc .keyError
  | _ => .raisedExc .keyError

/-- `cause = exception.__cause__ or exception`: a `ConnectionClosed`
caused by an oversized frame carries the websockets library's own
payload-too-big error as its `__cause__`. -/
def excCause : PyExc → PyExc
  | .connectionClosed true => .wsPayloadTooBig
  | e => e

/-- The branch of `send` that runs when the receive task has terminated:
re-raise the task's stored cause, or, if the task finished cleanly, raise
`ReceiveLoopStopped` (src/cdp.py lines 164-169). -/
def sendOnRxStopped (taskExc : Option PyExc) : SendOutcome :=
  match taskExc with
  | some e => .raisedExc (excCause e)
  | none => .raisedLoopStopped

/-- The response await of `CDPSession.send` in src/cdp.py (no response
timeout). The boolean records whether the `finally` unregistered the
slot (`del self._cmd_futures[cmd_id]`), which requires the call to
return or raise. -/
def cdpSendAwait (slotT taskT : Option Nat) (slotFrame : Json)
    (taskExc : Option PyExc) : SendOutcome × Bool :=
  match firstDone slotT taskT with
  | none => (.blockedForever, false)
  | some (true, _) => (resultOf slotFrame, true)
  | some (false, _) => (sendOnRxStopped taskExc, true)

/-- Default of the `response_timeout` parameter of `CDPSession.send` in
src/client.py. -/
def defaultResponseTimeout : Nat := 10

/-- The response await of `CDPSession.send` in src/client.py:
`asyncio.wait_for(asyncio.wait([response, task], FIRST_COMPLETED),
timeout=response_timeout)`. If nothing completes by `responseTimeout`
the call raises the timeout error; the `finally` unregisters the slot in
every exit path. -/
def clientSendAwait (slotT taskT : Option Nat) (slotFrame : Json)
    (taskExc : Option PyExc) (responseTimeout : Nat) : SendOutcome × Bool :=
  match firstDone slotT taskT with
  | none => (.raisedTimeout, true)
  | some (isSlot, t) =>
    if t ≤ responseTimeout then
      (if isSlot then resultOf slotFrame else sendOnRxStopped taskExc, true)
    else (.raisedTimeout, true)

/-! ## Command-id allocation (`CDPSession._new_cmd_id`, src/cdp.py lines
102-108)

`randint(0, 1000000000)` is modelled as an oracle stream of draws; the
`while cid is None or cid in self._used_cmd_ids` loop takes the first
draw outside the used set, and the chosen id is added to the set. -/

/-- Index of the first draw that does not collide with the used set. -/
def newCmdIdIdx (draws : Nat → Nat) (used : Finset Nat)
    (h : ∃ i, draws i ∉ used) : Nat :=
  Nat.find h

/-- The command id returned by `_new_cmd_id`. -/
def newCmdId (draws : Nat → Nat) (used : Finset Nat)
    (h : ∃ i, draws i ∉ used) : Nat :=
  draws (newCmdIdIdx draws used h)

/-- The used-id set after `_new_cmd_id` (`self._used_cmd_ids.add(cid)`). -/
def newCmdIdUsed (draws : Nat → Nat) (used : Finset Nat)
    (h : ∃ i, draws i ∉ used) : Finset Nat :=
  insert (newCmdId draws used h) used

/-! ## `get_pdf` orchestration slices (src/pdf.py) -/

/-- What the block after `Page.navigate` does (src/pdf.py lines 110-118).
`nav_resp` is what `cdp.send` returned, i.e. already the `"result"` field
of the reply frame. The code evaluates
`nav_resp["result"]["errorText"]` inside the f-string of
`raise NavigationError(...)` under `except KeyError: pass`: if either
subscript misses, the `KeyError` is swallowed and the orchestration
proceeds; only if both succeed is `NavigationError` raised. -/
inductive NavStep where
  | raisedNavError (errorText : Json)
  | proceedToLoad
deriving Repr

/-- The `errorText` check of `get_pdf` as written in src/pdf.py. -/
def navRespCheck (navResp : Json) : NavStep :=
  match navResp with
  | .obj fields =>
    match jGet fields "result" with
    | some (.obj inner) =>
      match jGet inner "errorText" with
      | some et => .raisedNavError et
      | none => .proceedToLoad
    | _ => .proceedToLoad
  | _ => .proceedToLoad

/-- Decimal digit to character. -/
def digitChar : Nat → Char
  | 0 => '0' | 1 => '1' | 2 => '2' | 3 => '3' | 4 => '4'
  | 5 => '5' | 6 => '6' | 7 => '7' | 8 => '8' | _ => '9'

/-- Most-significant-first decimal digits of `n`, with fuel for structural
termination (the fuel `n + 1` always suffices). -/
def natDecimalAux : Nat → Nat → List Char
  | 0, _ => []
  | fuel + 1, n =>
    if n < 10 then [digitChar n]
    else natDecimalAux fuel (n / 10) ++ [digitChar (n % 10)]

/-- Decimal representation of a natural number. -/
def natDecimal (n : Nat) : List Char := natDecimalAux (n + 1) n

/-- Python's `str()` of an integer, as its list of characters. -/
def pyStr (s : Int) : List Char :=
  if s < 0 then '-' :: natDecimal (-s).toNat else natDecimal s.toNat

/-- `status = str(response["status"]);
if not status.startswith("2") and status != "304"` (src/pdf.py lines
160-161): true when the code treats the status as a failure.
`startswith("2")` is the prefix test on the character list and
`!= "304"` the character-list comparison. -/
def statusFails (s : Int) : Bool :=
  !(List.isPrefixOf ['2'] (pyStr s)) && (pyStr s != ['3', '0', '4'])

/-- Result of the status-verification block of `get_pdf` (src/pdf.py
lines 146-166), given the awaited listener outcome: `none` when the
`status_timeout` expired, `some resp` when the `FrameRequestListener`
produced the main-document response object. -/
inductive StatusStage where
  | raisedStatusTimeout
  | raisedNavigationError (url : Json) (code : Int)
  | raisedKeyError
  | proceed (code : Int)
deriving Repr

/-- The status-verification block of `get_pdf`: timeout raises
`StatusTimeout`; a status outside `2xx`/`304` (per `statusFails`) raises
`NavigationError(url=response["url"], code=response["status"])`;
otherwise the orchestration proceeds (toward the cooperative-load gate
and `Page.printToPDF`). -/
def statusStage (listenerOutcome : Option Json) : StatusStage :=
  match listenerOutcome with
  | none => .raisedStatusTimeout
  | some resp =>
    match resp with
    | .obj fields =>
      match jGet fields "status" with
      | some (.num s) =>
        if statusFails s then
          match jGet fields "url" with
          | some u => .raisedNavigationError u s
          | none => .raisedKeyError
        else .proceed s
      | _ => .raisedKeyError
    | _ => .raisedKeyError

/-! ## The `finally` block of `get_pdf` and `CDPSession.disconnect`
(src/pdf.py lines 272-277, src/cdp.py lines 199-201)

`disconnect` runs `self._msg_rx_task.cancel()` then
`await self._ws.close()`. `CDPSession.__init__` sets both attributes to
`None`; `connect` assigns `self._ws` first and creates the task after, so
when `connect` itself failed, `disconnect` calls `.cancel()` on `None`
and raises `AttributeError`. The `finally` block of `get_pdf` awaits
`disconnect` *before* the `GET {cdp_host}/json/close/{tab_id}` request
and contains no exception handler, so an exception from `disconnect`
propagates and the tab-close request is never issued. -/

/-- `CDPSession.disconnect` given which session attributes were
assigned. -/
def disconnect (hasRxTask hasWs : Bool) : Except PyExc Unit :=
  if !hasRxTask then .error .attributeError
  else if !hasWs then .error .attributeError
  else .ok ()

/-- Observable effect of the `finally` block of `get_pdf`: whether the
`json/close/{tab_id}` HTTP request was issued, and the exception escaping
the finalizer, if any. -/
structure FinalizeResult where
  closeTabIssued : Bool
  raised : Option PyExc
deriving Repr, DecidableEq

/-- The `finally` block of `get_pdf`. -/
def getPdfFinalizer (hasRxTask hasWs : Bool) : FinalizeResult :=
  match disconnect hasRxTask hasWs with
  | .ok _ => { closeTabIssued := true, raised := none }
  | .error e => { closeTabIssued := false, raised := some e }

/-- Errors with which `get_pdf` can complete, as seen by the HTTP
handler. `cdpPayloadTooBig` is the `PayloadTooBig` class defined in
src/cdp.py lines 17-18. -/
inductive GetPdfError where
  | pageLoadTimeout
  | statusTimeout
  | pdfPrintTimeout
  | navigationError (url : Option Json) (code : Option Int)
  | cdpPayloadTooBig
  | receiveLoopStopped
  | pyExc (e : PyExc)
deriving Repr

/-- The body of `get_pdf` together with its `try`/`finally`: whatever the
body's outcome, the finalizer runs; if the finalizer raises, its
exception supersedes the body's outcome (Python `finally` semantics) and
the tab close is skipped. The first component is the call's final
outcome (`.inr` an escaped finalizer exception), the second whether the
tab-close request was issued. -/
def getPdfExit (body : Except GetPdfError Json) (hasRxTask hasWs : Bool) :
    (Except GetPdfError Json ⊕ PyExc) × Bool :=
  let fin := getPdfFinalizer hasRxTask hasWs
  match fin.raised with
  | some e => (.inr e, fin.closeTabIssued)
  | none => (.inl body, fin.closeTabIssued)

/-! ## The HTTP handler `pdf` (src/server.py lines 78-106)

`await asyncio.wait_for(get_pdf(...), timeout)` is wrapped in
`except TimeoutError` (the typed timeouts of src/pdf.py subclass
`TimeoutError`), `except PayloadTooBig` (the class from src/cdp.py), and
`except NavigationError`. Any other exception escapes the handler. -/

/-- HTTP outcome of `POST /`: a JSON response with a status code, or an
exception escaping the handler (which the web framework, not this code,
turns into an internal-server-error reply). -/
inductive HttpOutcome where
  | ok (status : Nat)
  | errorStatus (status : Nat)
  | unhandled (e : GetPdfError)
deriving Repr

/-- Whether a `GetPdfError` is caught by `except TimeoutError`: the three
typed timeouts of src/pdf.py subclass `TimeoutError`. -/
def isTimeoutError : GetPdfError → Bool
  | .pageLoadTimeout => true
  | .statusTimeout => true
  | .pdfPrintTimeout => true
  | _ => false

/-- The `pdf` request handler's mapping from the `get_pdf` outcome to the
HTTP response (src/server.py lines 92-106). -/
def pdfHandler (outcome : Except GetPdfError Json) : HttpOutcome :=
  match outcome with
  | .ok _ => .ok 200
  | .error e =>
    if isTimeoutError e then .errorStatus 504
    else
      match e with
      | .cdpPayloadTooBig => .errorStatus 413
      | .navigationError _ _ => .errorStatus 424
      | _ => .unhandled e

/-! ## Concrete states and frames used in the theorems -/

/-- A session with one queue (id 0, empty) subscribed to the event method
`"finished"`, no pending commands, receive loop alive: the setup of the
repository's own tests `test_cdpsession_non_json_response` and
`test_cdpsession_list_response`. -/
def stSub : SessionState := ⟨[], [("finished", [0])], [(0, [])], false⟩

/-- The well-formed event frame `{"method": "finished"}`. -/
def frameFinished : Json := Json.obj [("method", Json.str "finished")]

/-- A session with a completion slot registered and still pending for
command id 7, and one queue (id 0) subscribed to `"Foo"`. -/
def stDup : SessionState := ⟨[(7, Slot.pending)], [("Foo", [0])], [(0, [])], false⟩

/-- A first reply frame bearing id 7. -/
def replyA : Json := Json.obj [("id", Json.num 7), ("result", Json.obj [])]

/-- A second frame bearing the same id 7, also carrying a method. -/
def replyB : Json :=
  Json.obj [("id", Json.num 7), ("method", Json.str "Foo"), ("params", Json.obj [])]

/-! ## Theorems for the claims -/

/-- C1: the claim says a frame that fails to parse as JSON, or parses to a
non-object, is discarded and the receive loop continues, with
`listening_stopped` not set and later well-formed frames still dispatched.
The code does the opposite: `json.loads` failure raises an uncaught
`JSONDecodeError` and a non-object makes `data.get("id")` raise an
uncaught `AttributeError`; either exits the loop, the `finally` sets
`listening_stopped`, and the following well-formed `{"method":"finished"}`
frame is never dispatched to its subscriber. (The repository's own tests
assert the claimed tolerance, so this is a bug in the code.) A third
conjunct block shows the baseline: a well-formed frame alone is
dispatched and leaves the loop running. -/
theorem c1_malformed_frame_kills_rx_loop :
    (rxLoop stSub [RecvEvent.frame none, RecvEvent.frame (some frameFinished)]).taskExc
        = some PyExc.jsonDecodeError
    ∧ (rxLoop stSub [RecvEvent.frame none,
        RecvEvent.frame (some frameFinished)]).state.listeningStopped = true
    ∧ queueBuf (rxLoop stSub [RecvEvent.frame none,
        RecvEvent.frame (some frameFinished)]).state 0 = some []
    ∧ (rxLoop stSub [RecvEvent.frame (some (Json.arr [])),
        RecvEvent.frame (some frameFinished)]).taskExc = some PyExc.attributeError
    ∧ (rxLoop stSub [RecvEvent.frame (some (Json.arr [])),
        RecvEvent.frame (some frameFinished)]).state.listeningStopped = true
    ∧ queueBuf (rxLoop stSub [RecvEvent.frame (some (Json.arr [])),
        RecvEvent.frame (some frameFinished)]).state 0 = some []
    ∧ (rxLoop stSub [RecvEvent.frame (some frameFinished)]).running = true
    ∧ (rxLoop stSub [RecvEvent.frame (some frameFinished)]).state.listeningStopped = false
    ∧ queueBuf (rxLoop stSub [RecvEvent.frame (some frameFinished)]).state 0
        = some [frameFinished] :=
  ⟨rfl, rfl, rfl, rfl, rfl, rfl, rfl, rfl, rfl⟩

/-- C2: the claim says a `Page.navigate` reply containing `errorText`
makes `get_pdf` fail with `NavigationError(errorText)` before waiting for
the load event. In the code, `cdp.send` has already returned the reply's
`"result"` field, yet the check reads `nav_resp["result"]["errorText"]`;
the extra `["result"]` subscript always raises `KeyError`, which the
`except KeyError: pass` swallows, so the orchestration proceeds to the
load wait even when `errorText` is present. -/
theorem c2_error_text_check_is_dead :
    navRespCheck (Json.obj [("frameId", Json.str "F1"),
        ("errorText", Json.str "net::ERR_NAME_NOT_RESOLVED")]) = NavStep.proceedToLoad
    ∧ navRespCheck (Json.obj [("frameId", Json.str "F1"),
        ("errorText", Json.str "net::ERR_NAME_NOT_RESOLVED")])
        ≠ NavStep.raisedNavError (Json.str "net::ERR_NAME_NOT_RESOLVED") :=
  ⟨rfl, fun h => nomatch h⟩

/-- C4 counterexample: on the exit path where the tab was opened but
`cdp.connect` failed (so `_msg_rx_task` and `_ws` are still `None`), the
`finally` block's `cdp.disconnect()` raises `AttributeError`
(`None.cancel()`); nothing catches it, so it propagates out of `get_pdf`
and the `GET {cdp_host}/json/close/{tab_id}` request is never issued —
refuting both "issued on every exit path" and "failures inside this
finalizer are logged and swallowed". -/
theorem c4_finalizer_counterexample :
    getPdfExit (Except.error GetPdfError.receiveLoopStopped) false false
        = (Sum.inr PyExc.attributeError, false)
    ∧ (getPdfFinalizer false false).closeTabIssued = false
    ∧ (getPdfFinalizer false false).raised = some PyExc.attributeError :=
  ⟨rfl, rfl, rfl⟩

/-- C4 amended: when `disconnect` succeeds (the receive task and
websocket exist, i.e. `connect` completed), the tab-close request is
issued on every exit path — success and every failure — and the body's
outcome passes through unchanged; but when the session never connected,
`disconnect` raises `AttributeError`, the exception propagates (nothing
is logged and swallowed), and the tab-close request is skipped. -/
theorem c4_finalizer_amended :
    (∀ body : Except GetPdfError Json, getPdfExit body true true = (Sum.inl body, true))
    ∧ (∀ (body : Except GetPdfError Json) (hw : Bool),
        getPdfExit body false hw = (Sum.inr PyExc.attributeError, false)) :=
  ⟨fun _ => rfl, fun _ _ => rfl⟩

/-- C6 counterexample: with `listening_stopped` set and one event still
enqueued, the next pull of `subscribe` raises `ReceiveLoopStopped`
instead of yielding the enqueued event — the `while not
self.listening_stopped.is_set()` guard checks only the flag, never
whether the queue is drained. -/
theorem c6_subscribe_counterexample :
    subscribeNext true [frameFinished] = PullOutcome.raisedLoopStopped
    ∧ subscribeNext true [frameFinished] ≠ PullOutcome.yielded frameFinished [] :=
  ⟨rfl, fun h => nomatch h⟩

/-- C6 amended: `subscribe` yields enqueued events only while
`receive_stopped` (`listening_stopped`) is unset; as soon as the flag is
set, the stream fails with `ReceiveLoopStopped` at the next pull even if
events remain enqueued — those events are dropped, not yielded. -/
theorem c6_subscribe_amended :
    (∀ q : List Json, subscribeNext true q = PullOutcome.raisedLoopStopped)
    ∧ (∀ (e : Json) (r : List Json), subscribeNext false (e :: r) = PullOutcome.yielded e r)
    ∧ subscribeNext false [] = PullOutcome.blocked :=
  ⟨fun _ => rfl, fun _ _ => rfl, rfl⟩

/-- C10: `wait_for(method)` completes only by returning the next event of
the method: it never consults `listening_stopped` (its outcome is
independent of the flag), it never raises `ReceiveLoopStopped`, and with
an empty queue it stays blocked — unlike `subscribe`, whose next pull
after the flag is set raises `ReceiveLoopStopped`, and unlike `send`,
which raises `ReceiveLoopStopped` when it observes the receive task
finish cleanly. -/
theorem c10_wait_for_ignores_loop_stop :
    (∀ (stopped : Bool) (q : List Json), waitForNext stopped q = waitForNext false q)
    ∧ (∀ stopped : Bool, waitForNext stopped [] = PullOutcome.blocked)
    ∧ (∀ (stopped : Bool) (q : List Json), waitForNext stopped q ≠ PullOutcome.raisedLoopStopped)
    ∧ (∀ q : List Json, subscribeNext true q = PullOutcome.raisedLoopStopped)
    ∧ sendOnRxStopped none = SendOutcome.raisedLoopStopped :=
  by
  refine ⟨fun _ q => ?_, fun _ => rfl, fun _ q => ?_, fun _ => rfl, rfl⟩
  · cases q <;> rfl
  · cases q <;> exact fun h => nomatch h

/-- C3: the claim says an inbound frame over `max_size` fails the
operation with the `PayloadTooBig` error and `POST /` surfaces it as
HTTP 413. In the code, the oversized frame makes the websockets library
fail the connection, so `recv` raises `ConnectionClosed` (with the
library's payload error as its `__cause__`); `_msg_rx_loop` swallows
`ConnectionClosed` (`except ...: pass`), so the task finishes with no
stored exception, a blocked `send` therefore raises `ReceiveLoopStopped`
— not `PayloadTooBig` — and the handler in src/server.py, which maps
only `cdp.PayloadTooBig` to 413, does not catch it: the exception
escapes the handler instead of producing a 413. The `PayloadTooBig`
class of src/cdp.py is raised nowhere in the repository; the final
conjunct shows 413 is produced for no other error. -/
theorem c3_payload_too_big_never_413 :
    (rxLoop ⟨[(42, Slot.pending)], [], [], false⟩ [RecvEvent.closed true]).taskExc = none
    ∧ (rxLoop ⟨[(42, Slot.pending)], [], [], false⟩
        [RecvEvent.closed true]).state.listeningStopped = true
    ∧ sendOnRxStopped (rxLoop ⟨[(42, Slot.pending)], [], [], false⟩
        [RecvEvent.closed true]).taskExc = SendOutcome.raisedLoopStopped
    ∧ pdfHandler (Except.error GetPdfError.receiveLoopStopped)
        = HttpOutcome.unhandled GetPdfError.receiveLoopStopped
    ∧ pdfHandler (Except.error GetPdfError.receiveLoopStopped) ≠ HttpOutcome.errorStatus 413
    ∧ (∀ e : GetPdfError, pdfHandler (Except.error e) = HttpOutcome.errorStatus 413
        ↔ e = GetPdfError.cdpPayloadTooBig) :=
  by
  refine ⟨rfl, rfl, rfl, rfl, ?_, fun e => ?_⟩
  · exact fun h => nomatch h
  · cases e <;> simp [pdfHandler, isTimeoutError]

/-- C8 counterexample: two inbound frames bearing the same command id 7
arrive while the completion slot is still registered. The first resolves
the slot; the second calls `set_result` on the already-resolved future,
raising `InvalidStateError`, which only a `KeyError` handler guards — the
receive loop dies (and the second frame, though it carries a method, is
never routed to the `"Foo"` subscriber). This refutes "its arrival does
not terminate the receive loop" and "routed only as an event". -/
theorem c8_duplicate_id_counterexample :
    (rxLoop stDup [RecvEvent.frame (some replyA), RecvEvent.frame (some replyB)]).taskExc
        = some PyExc.invalidStateError
    ∧ (rxLoop stDup [RecvEvent.frame (some replyA),
        RecvEvent.frame (some replyB)]).running = false
    ∧ (rxLoop stDup [RecvEvent.frame (some replyA),
        RecvEvent.frame (some replyB)]).state.listeningStopped = true
    ∧ queueBuf (rxLoop stDup [RecvEvent.frame (some replyA),
        RecvEvent.frame (some replyB)]).state 0 = some [] :=
  ⟨rfl, rfl, rfl, rfl⟩

set_option maxRecDepth 4000 in
/-- Helper: over the HTTP status-code range, the code's string test
`not str(s).startswith("2") and str(s) != "304"` agrees with "not 2xx
and not 304". -/
theorem statusFails_nat (s : Nat) (h1 : 100 ≤ s) (h2 : s < 600) :
    statusFails ((s : Int)) = true ↔ ¬((200 ≤ s ∧ s ≤ 299) ∨ s = 304) := by
  have base : ∀ t : Nat, t < 600 → 100 ≤ t →
      (statusFails ((t : Int)) = true ↔ ¬((200 ≤ t ∧ t ≤ 299) ∨ t = 304)) := by decide
  exact base s h2 h1

/-- Helper: `resultOf` never produces the timeout outcome. -/
theorem resultOf_ne_timeout (j : Json) : resultOf j ≠ SendOutcome.raisedTimeout := by
  cases j with
  | null => exact fun h => nomatch h
  | bool b => exact fun h => nomatch h
  | num n => exact fun h => nomatch h
  | str s => exact fun h => nomatch h
  | arr es => exact fun h => nomatch h
  | obj fields =>
    cases hres : jGet fields "result" with
    | none => simp [resultOf, hres]
    | some r => simp [resultOf, hres]

/-- Helper: `sendOnRxStopped` never produces the timeout outcome. -/
theorem sendOnRxStopped_ne_timeout (e : Option PyExc) :
    sendOnRxStopped e ≠ SendOutcome.raisedTimeout := by
  cases e <;> exact fun h => nomatch h

/-- C5 counterexample: the claim says every `send` with
`await_response=true` races the completion slot, the receive task and a
response timeout (default 10 s). The `CDPSession.send` in src/cdp.py —
the one `get_pdf` drives — has no such timeout: when neither the slot is
resolved nor the receive task terminates, the call stays blocked forever
(in particular its completion-slot cleanup never runs), instead of
failing with a timeout error at 10 s. -/
theorem c5_send_timeout_counterexample :
    cdpSendAwait none none Json.null none = (SendOutcome.blockedForever, false)
    ∧ (cdpSendAwait none none Json.null none).1 ≠ SendOutcome.raisedTimeout :=
  ⟨rfl, fun h => nomatch h⟩

/-- C5 amended: the claimed behaviour is that of `CDPSession.send` in
src/client.py: with `await_response=true` it awaits whichever comes first
of the slot being resolved, the receive task terminating, and the
response timeout (default 10) elapsing; when the timeout elapses first
the slot is unregistered and the call fails with a timeout error (the
slot is in fact unregistered on every completed path). The
`CDPSession.send` of src/cdp.py, which `get_pdf` uses, has no response
timeout: it awaits only the slot and the receive task, never produces a
timeout outcome, and blocks forever when neither completes. -/
theorem c5_send_amended :
    defaultResponseTimeout = 10
    ∧ (∀ (slotT taskT : Option Nat) (j : Json) (e : Option PyExc) (rt : Nat),
        firstDone slotT taskT = none →
        clientSendAwait slotT taskT j e rt = (SendOutcome.raisedTimeout, true))
    ∧ (∀ (slotT taskT : Option Nat) (j : Json) (e : Option PyExc) (rt : Nat)
        (b : Bool) (t : Nat), firstDone slotT taskT = some (b, t) → rt < t →
        clientSendAwait slotT taskT j e rt = (SendOutcome.raisedTimeout, true))
    ∧ (∀ (slotT taskT : Option Nat) (j : Json) (e : Option PyExc) (rt t : Nat),
        firstDone slotT taskT = some (true, t) → t ≤ rt →
        clientSendAwait slotT taskT j e rt = (resultOf j, true))
    ∧ (∀ (slotT taskT : Option Nat) (j : Json) (e : Option PyExc) (rt t : Nat),
        firstDone slotT taskT = some (false, t) → t ≤ rt →
        clientSendAwait slotT taskT j e rt = (sendOnRxStopped e, true))
    ∧ (∀ (j : Json) (e : Option PyExc),
        cdpSendAwait none none j e = (SendOutcome.blockedForever, false))
    ∧ (∀ (slotT taskT : Option Nat) (j : Json) (e : Option PyExc),
        (cdpSendAwait slotT taskT j e).1 ≠ SendOutcome.raisedTimeout) := by
  refine ⟨rfl, ?_, ?_, ?_, ?_, fun _ _ => rfl, ?_⟩
  · intro slotT taskT j e rt hfd
    simp only [clientSendAwait, hfd]
  · intro slotT taskT j e rt b t hfd hlate
    simp only [clientSendAwait, hfd, if_neg (Nat.not_le.mpr hlate)]
  · intro slotT taskT j e rt t hfd hin
    simp [clientSendAwait, hfd, hin]
  · intro slotT taskT j e rt t hfd hin
    simp [clientSendAwait, hfd, hin]
  · intro slotT taskT j e
    unfold cdpSendAwait
    cases hfd : firstDone slotT taskT with
    | none => exact fun h => nomatch h
    | some p =>
      rcases p with ⟨b, t⟩
      cases b
      · exact sendOnRxStopped_ne_timeout e
      · exact resultOf_ne_timeout j

/-- C5 witness for the amended statement: with neither the slot nor the
receive task completing, the client variant times out at the default 10
and unregisters the slot; with the slot resolving at 3 and the task at 7,
it returns the reply's result field; with the slot resolving only at 20,
past the timeout 10, it times out. -/
theorem c5_send_witness :
    clientSendAwait none none Json.null none 10 = (SendOutcome.raisedTimeout, true)
    ∧ clientSendAwait (some 3) (some 7) (Json.obj [("result", Json.obj [])]) none 10
        = (resultOf (Json.obj [("result", Json.obj [])]), true)
    ∧ clientSendAwait (some 20) none Json.null none 10 = (SendOutcome.raisedTimeout, true) :=
  ⟨c5_send_amended.2.1 none none Json.null none 10 rfl,
   c5_send_amended.2.2.2.1 (some 3) (some 7) (Json.obj [("result", Json.obj [])]) none 10 3
     rfl (by norm_num),
   c5_send_amended.2.2.1 (some 20) none Json.null none 10 true 20 rfl (by norm_num)⟩

/-- C7: after the load event, `get_pdf` awaits the main-document response
bounded by `status_timeout`, and the expiry of that bound raises
`StatusTimeout`; given the response object, the code fails with
`NavigationError(url=response["url"], code=response["status"])` exactly
when the status (any HTTP status code, 100 ≤ s < 600) is not `2xx` and
not `304`, and otherwise proceeds (toward the cooperative-load gate and
`Page.printToPDF`). -/
theorem c7_status_stage (fields : List (String × Json)) (s : Nat) (u : Json)
    (hs : jGet fields "status" = some (Json.num ((s : Int))))
    (hu : jGet fields "url" = some u)
    (h1 : 100 ≤ s) (h2 : s < 600) :
    statusStage none = StatusStage.raisedStatusTimeout
    ∧ (¬((200 ≤ s ∧ s ≤ 299) ∨ s = 304) →
        statusStage (some (Json.obj fields)) = StatusStage.raisedNavigationError u ((s : Int)))
    ∧ (((200 ≤ s ∧ s ≤ 299) ∨ s = 304) →
        statusStage (some (Json.obj fields)) = StatusStage.proceed ((s : Int))) := by
  refine ⟨rfl, ?_, ?_⟩
  · intro hbad
    have hfail : statusFails ((s : Int)) = true := (statusFails_nat s h1 h2).mpr hbad
    simp [statusStage, hs, hu, hfail]
  · intro hok
    have hfail : statusFails ((s : Int)) = false := by
      cases ht : statusFails ((s : Int))
      · rfl
      · exact absurd hok ((statusFails_nat s h1 h2).mp ht)
    simp [statusStage, hs, hfail]

/-- C7 witness: the status check at concrete responses — status 404
raises `NavigationError` with the response's url and code, status 200
proceeds, and listener-timeout expiry raises `StatusTimeout`. -/
theorem c7_status_stage_witness :
    statusStage (some (Json.obj [("status", Json.num 404), ("url", Json.str "http://x")]))
        = StatusStage.raisedNavigationError (Json.str "http://x") 404
    ∧ statusStage (some (Json.obj [("status", Json.num 200), ("url", Json.str "http://x")]))
        = StatusStage.proceed 200
    ∧ statusStage none = StatusStage.raisedStatusTimeout :=
  ⟨(c7_status_stage [("status", Json.num 404), ("url", Json.str "http://x")] 404
      (Json.str "http://x") rfl rfl (by norm_num) (by norm_num)).2.1 (by norm_num),
   (c7_status_stage [("status", Json.num 200), ("url", Json.str "http://x")] 200
      (Json.str "http://x") rfl rfl (by norm_num) (by norm_num)).2.2 (Or.inl (by norm_num)),
   (c7_status_stage [("status", Json.num 200), ("url", Json.str "http://x")] 200
      (Json.str "http://x") rfl rfl (by norm_num) (by norm_num)).1⟩

/-- C8 amended: a completion slot for id K is resolved by at most one
inbound frame in the strong sense that a second frame bearing id K while
the slot is resolved-and-still-registered never re-resolves it — but
then the uncaught `InvalidStateError` terminates the receive loop rather
than routing the frame as an event. A later frame with id K arriving
after the slot was deregistered (`send`'s `finally` ran) leaves the slot
directory untouched and is routed only as an event: it is enqueued on the
queues subscribed to its method and on the wildcard queues, and the loop
continues. -/
theorem c8_slot_resolution_amended :
    (∀ (st : SessionState) (fields : List (String × Json)) (k : Int) (d : Json),
        jGet fields "id" = some (Json.num k) →
        lookupSlot st.cmdFutures k = some (Slot.resolved d) →
        rxRawStep st (RecvEvent.frame (some (Json.obj fields)))
          = RxStep.exit st (some PyExc.invalidStateError))
    ∧ (∀ (st : SessionState) (fields : List (String × Json)) (k : Int) (m : String),
        jGet fields "id" = some (Json.num k) →
        jGet fields "method" = some (Json.str m) →
        lookupSlot st.cmdFutures k = none →
        rxRawStep st (RecvEvent.frame (some (Json.obj fields)))
          = RxStep.cont { st with
              queues := enqueueAll (enqueueAll st.queues (queueIdsFor st m) (Json.obj fields))
                (queueIdsFor st "*") (Json.obj fields) }) := by
  constructor
  · intro st fields k d hid hslot
    simp only [rxRawStep, handleFrame, hid, hslot]
  · intro st fields k m hid hm hslot
    simp only [rxRawStep, handleFrame, hid, hm, hslot]

/-- C8 witness for the amended statement: on a session whose slot for
id 7 is resolved and still registered, the duplicate reply kills the
loop; on a session with no slot for id 7, the same frame is routed to
the `"Foo"` subscriber (queue 0) and the loop continues. -/
theorem c8_slot_resolution_witness :
    rxRawStep ⟨[(7, Slot.resolved replyA)], [("Foo", [0])], [(0, [])], false⟩
        (RecvEvent.frame (some replyB))
      = RxStep.exit ⟨[(7, Slot.resolved replyA)], [("Foo", [0])], [(0, [])], false⟩
          (some PyExc.invalidStateError)
    ∧ rxRawStep ⟨[], [("Foo", [0])], [(0, [])], false⟩ (RecvEvent.frame (some replyB))
      = RxStep.cont { (⟨[], [("Foo", [0])], [(0, [])], false⟩ : SessionState) with
          queues := enqueueAll (enqueueAll [(0, [])]
            (queueIdsFor ⟨[], [("Foo", [0])], [(0, [])], false⟩ "Foo") replyB)
            (queueIdsFor ⟨[], [("Foo", [0])], [(0, [])], false⟩ "*") replyB } :=
  ⟨c8_slot_resolution_amended.1 _ _ 7 replyA rfl rfl,
   c8_slot_resolution_amended.2 _ _ 7 "Foo" rfl rfl rfl⟩

/-- C9: `_new_cmd_id` takes the first random draw outside the used-id
set (every earlier draw collided), so the returned id is fresh; with
draws in `randint`'s range [0, 1e9] the id is in that range; the id is
added to the used set, which only grows; and a subsequent allocation —
whatever its draws — can never return the same id again. -/
theorem c9_new_cmd_id (draws : Nat → Nat) (used : Finset Nat)
    (h : ∃ i, draws i ∉ used) (hrange : ∀ i, draws i ≤ 1000000000) :
    newCmdId draws used h ∉ used
    ∧ newCmdId draws used h ≤ 1000000000
    ∧ (∀ j, j < newCmdIdIdx draws used h → draws j ∈ used)
    ∧ used ⊆ newCmdIdUsed draws used h
    ∧ newCmdId draws used h ∈ newCmdIdUsed draws used h
    ∧ (∀ (draws2 : Nat → Nat) (h2 : ∃ i, draws2 i ∉ newCmdIdUsed draws used h),
        newCmdId draws2 (newCmdIdUsed draws used h) h2 ≠ newCmdId draws used h) := by
  refine ⟨Nat.find_spec h, hrange _, ?_, Finset.subset_insert _ _,
    Finset.mem_insert_self _ _, ?_⟩
  · intro j hj
    have := Nat.find_min h hj
    simpa using this
  · intro draws2 h2 heq
    have hspec := Nat.find_spec h2
    rw [newCmdId, newCmdIdIdx] at heq
    rw [heq] at hspec
    exact hspec (Finset.mem_insert_self _ _)

/-- A draw stream all of whose draws are 7 eventually avoids the used set
`{5}`. -/
theorem drawsFresh7 : ∃ i, (fun _ : Nat => 7) i ∉ ({5} : Finset Nat) := ⟨0, by decide⟩

/-- C9 witness: allocating against the used set `{5}` with a draw stream
returning 7 yields an id outside the used set and within `randint`'s
range. -/
theorem c9_new_cmd_id_witness :
    newCmdId (fun _ => 7) {5} drawsFresh7 ∉ ({5} : Finset Nat)
    ∧ newCmdId (fun _ => 7) {5} drawsFresh7 ≤ 1000000000 :=
  ⟨(c9_new_cmd_id _ _ drawsFresh7 (fun _ => by norm_num)).1,
   (c9_new_cmd_id _ _ drawsFresh7 (fun _ => by norm_num)).2.1⟩

end ChromiumPdfApi
